import Mathlib

/-!
Shallow embedding of `pdpa_legal_advisor.py` (PDPA Legal Advisor): the
Section Store loader, the Scenario Gatekeeper, the Relevance Selector with
its model-fallback policy, and the Opinion Generator with its JSON
extraction, sanitization and validation pipeline.  Python strings are
modelled as Lean `String` (lists of characters), pandas frames as
association-list rows, the hosted-model boundary as an explicit oracle
`String → ModelOutcome`, and exceptions as `Except String`.
-/

set_option autoImplicit false
set_option maxRecDepth 100000

namespace PDPA

/-! ## Python string primitives -/

/-- Characters treated as whitespace by Python `str.strip` (space, tab,
newline, carriage return, vertical tab, form feed). -/
def pyWs (c : Char) : Bool :=
  [32, 9, 10, 13, 11, 12].contains c.toNat

/-- `isPre pat s` : does `pat` occur at the very start of `s`? -/
def isPre (pat s : List Char) : Bool :=
  match pat, s with
  | [], _ => true
  | p :: ps, q :: qs => p == q && isPre ps qs
  | _, _ => false

/-- `hasSub pat s` : does `pat` occur as a contiguous substring of `s`?
Models the Python `in` operator on strings. -/
def hasSub (pat : List Char) : List Char → Bool
  | [] => pat.isEmpty
  | c :: rest => isPre pat (c :: rest) || hasSub pat rest

/-- Python `needle in hay` for strings. -/
def pyIn (needle hay : String) : Bool := hasSub needle.toList hay.toList

/-- Python `str.lower` (ASCII case fold, as used on ASCII scenarios). -/
def pyLower (s : String) : String := ⟨s.toList.map Char.toLower⟩

/-- Strip leading and trailing whitespace from a character list. -/
def pyStripList (s : List Char) : List Char :=
  ((s.dropWhile pyWs).reverse.dropWhile pyWs).reverse

/-- Python `str.strip()`. -/
def pyStrip (s : String) : String := ⟨pyStripList s.toList⟩

/-- One pass of Python `str.replace`: scan left to right, replacing each
non-overlapping occurrence of `pat` by `repl`.  `fuel` bounds the scan and
is instantiated with the string length. -/
def replaceFrom (pat repl : List Char) : Nat → List Char → List Char
  | 0, l => l
  | _ + 1, [] => []
  | fuel + 1, c :: rest =>
    if !pat.isEmpty && isPre pat (c :: rest) then
      repl ++ replaceFrom pat repl fuel (List.drop pat.length (c :: rest))
    else
      c :: replaceFrom pat repl fuel rest

/-- Python `s.replace(pat, repl)` (all occurrences, no word boundaries). -/
def pyReplace (s pat repl : String) : String :=
  ⟨replaceFrom pat.toList repl.toList s.toList.length s.toList⟩

/-! ## Scenario Gatekeeper (`is_legal_scenario`, lines 165-209) -/

/-- The fixed keyword list from `is_legal_scenario`.  Note that
`"organization"` appears twice, exactly as in the source. -/
def legalKeywords : List String :=
  ["data", "personal", "privacy", "consent", "collection", "disclosure",
   "breach", "access", "correction", "retention", "protection", "purpose",
   "organization", "individual", "customer", "client", "employee", "user",
   "information", "records", "database", "processing", "storage", "transfer",
   "compliance", "policy", "procedure", "notification", "request", "rights",
   "unauthorized", "security", "confidential", "sensitive", "identifiable",
   "pdp", "gdpr", "regulation", "law", "legal", "statute", "act",
   "company", "business", "organization", "entity", "corporation"]

/-- The fixed "obviously non-legal" indicator list from `is_legal_scenario`. -/
def nonLegalIndicators : List String :=
  ["chocolate", "labubu", "matcha", "food", "recipe", "cooking",
   "gaming", "game", "entertainment", "music", "movie", "book",
   "weather", "sports", "travel", "vacation", "hobby", "art",
   "random", "joke", "meme", "funny", "test", "hello", "hi"]

/-- `sum(1 for keyword in legal_keywords if keyword in scenario_lower)`. -/
def keywordCount (scenario : String) : Nat :=
  (legalKeywords.map (fun k => if pyIn k (pyLower scenario) then 1 else 0)).sum

def rejectReasonNoKeywords : String :=
  "Scenario does not appear to contain legal or data protection related content. Please provide a scenario involving personal data, privacy, or legal compliance issues."

def rejectReasonNonLegal : String :=
  "Scenario appears to be non-legal content. Please provide a factual scenario involving data protection, privacy, or legal compliance issues."

def acceptReason : String := "Scenario appears to be legal-related."

/-- `is_legal_scenario`: two-tier keyword heuristic returning
`(accepted, reason)`. -/
def isLegalScenario (scenario : String) : Bool × String :=
  let lower := pyLower scenario
  let cnt := keywordCount scenario
  if cnt < 2 then
    (false, rejectReasonNoKeywords)
  else if (nonLegalIndicators.any fun t => pyIn t lower) && cnt < 3 then
    (false, rejectReasonNonLegal)
  else
    (true, acceptReason)

/-! ## Section Store (`_load_pdpa_data`, lines 42-53) -/

/-- A pandas row, modelled as an association list from column name to cell;
`none` models a missing value (`NaN`). -/
abbrev Row := List (String × Option String)

/-- A pandas `DataFrame`: its column names and its rows. -/
structure Frame where
  columns : List String
  rows : List Row
deriving DecidableEq, Repr

/-- Cell access: `some (some v)` a present value, `some none` a null cell,
`none` no such column in the row. -/
def lookupCell (r : Row) (c : String) : Option (Option String) :=
  (r.find? fun p => p.1 == c).map (·.2)

/-- Models the pandas check `str.match(r'^\d+$')`: non-empty, all digits. -/
def isDigits (s : String) : Bool :=
  !s.isEmpty && s.toList.all Char.isDigit

/-- A row survives `_load_pdpa_data`'s filter: its `section_number` cell is
present, non-null, and all digits. -/
def goodRow (r : Row) : Bool :=
  match lookupCell r "section_number" with
  | some (some v) => isDigits v
  | _ => false

/-- `_load_pdpa_data`: the CSV source is modelled post-`read_csv` as
`Option Frame` (`none` = the source could not be parsed as tabular data, in
which case `read_csv` raises).  A missing `section_number` column makes
`dropna(subset=['section_number'])` raise a `KeyError`; both exceptions are
re-raised as `Exception("Error loading PDPA data: ...")`.  No other column
is touched at load time. -/
def loadPdpaData (source : Option Frame) : Except String Frame :=
  match source with
  | none => .error "Error loading PDPA data: could not parse tabular source"
  | some df =>
    if "section_number" ∈ df.columns then
      .ok { columns := df.columns, rows := df.rows.filter goodRow }
    else
      .error "Error loading PDPA data: KeyError section_number"

/-! ## Section excerpts and lookup -/

/-- The per-section record built by `search_relevant_sections` and
`_get_fallback_sections` (keys `section_number`, `title`, `text`). -/
structure SectionExcerpt where
  section_number : String
  title : String
  text : String
deriving DecidableEq, Repr

/-- Row projections; the loaded frames the program uses carry string cells
for these columns, so the defaults are never exercised on them. -/
def rowNum (r : Row) : String := ((lookupCell r "section_number").getD none).getD ""

def rowTitle (r : Row) : String := ((lookupCell r "section_title").getD none).getD ""

def rowText (r : Row) : String := ((lookupCell r "text").getD none).getD ""

/-- `section['text'][:1000] + "..." if len(str(section['text'])) > 1000`. -/
def excerptText (t : String) : String :=
  if t.length > 1000 then t.take 1000 ++ "..." else t

/-- `self.df[self.df['section_number'] == section_num]` followed by
`.iloc[0]`: first row whose `section_number` cell equals `num`. -/
def findSection (df : Frame) (num : String) : Option Row :=
  df.rows.find? fun r => lookupCell r "section_number" == some (some num)

/-- Hydrate one selected identifier from the store; `none` when absent
(silently skipped by the callers). -/
def getSection (df : Frame) (num : String) : Option SectionExcerpt :=
  (findSection df num).map fun r =>
    { section_number := rowNum r, title := rowTitle r, text := excerptText (rowText r) }

/-! ## Hosted-model boundary and fallback policy (lines 97-119, 278-300) -/

/-- Outcome of one `chat.completions.create` call for a given model
identifier: a reply text, or a raised exception with message `msg`. -/
inductive ModelOutcome where
  | reply (content : String)
  | err (msg : String)
deriving DecidableEq, Repr

/-- The fixed ordered candidate list, used by both model-calling sites. -/
def modelsToTry : List String := ["gpt-4o-mini", "gpt-3.5-turbo", "gpt-4"]

/-- `"model_not_found" in str(e) or "does not exist" in str(e)`. -/
def isNotFoundErr (e : String) : Bool :=
  pyIn "model_not_found" e || pyIn "does not exist" e

/-- The model-fallback loop: iterate the candidate list; a "not found"
error advances to the next candidate, any other error is raised out of the
loop; exhausting the list raises `"No available models found"`. -/
def tryModels (oracle : String → ModelOutcome) : List String → Except String String
  | [] => .error "No available models found"
  | m :: ms =>
    match oracle m with
    | .reply c => .ok c
    | .err e => if isNotFoundErr e then tryModels oracle ms else .error e

/-! ## JSON values (the result of `json.loads`) -/

/-- Python values produced by `json.loads`: `None`, `bool`, numbers (kept
as their lexeme), `str`, `list`, `dict` (insertion-ordered pairs; on
duplicate keys `json.loads` keeps the last, so lookups scan from the
right). -/
inductive JValue where
  | jnull
  | jbool (b : Bool)
  | jnum (lex : String)
  | jstr (s : String)
  | jarr (elems : List JValue)
  | jobj (fields : List (String × JValue))
deriving Repr

mutual

/-- Python `repr` of a JSON-decoded value (only a plausible rendering for
containers; the program only ever applies it to scalars on live paths). -/
def pyRepr : JValue → String
  | .jnull => "None"
  | .jbool true => "True"
  | .jbool false => "False"
  | .jnum lex => lex
  | .jstr s => "'" ++ s ++ "'"
  | .jarr xs => "[" ++ pyReprList xs ++ "]"
  | .jobj kvs => "\x7b" ++ pyReprObj kvs ++ "\x7d"

def pyReprList : List JValue → String
  | [] => ""
  | [x] => pyRepr x
  | x :: y :: xs => pyRepr x ++ ", " ++ pyReprList (y :: xs)

def pyReprObj : List (String × JValue) → String
  | [] => ""
  | [(k, v)] => "'" ++ k ++ "': " ++ pyRepr v
  | (k, v) :: y :: xs => "'" ++ k ++ "': " ++ pyRepr v ++ ", " ++ pyReprObj (y :: xs)

end

/-- Python `str` of a JSON-decoded value. -/
def pyStr : JValue → String
  | .jstr s => s
  | v => pyRepr v

/-- Dict lookup with Python semantics (last binding wins). -/
def getKey (kvs : List (String × JValue)) (k : String) : Option JValue :=
  (kvs.reverse.find? fun p => p.1 == k).map (·.2)

/-! ## A JSON parser modelling `json.loads` -/

/-- JSON insignificant whitespace (space, tab, newline, carriage return). -/
def jsonWs (c : Char) : Bool := [32, 9, 10, 13].contains c.toNat

def skipWs (s : List Char) : List Char := s.dropWhile jsonWs

def hexVal (c : Char) : Option Nat :=
  let n := c.toNat
  if 48 ≤ n ∧ n ≤ 57 then some (n - 48)
  else if 97 ≤ n ∧ n ≤ 102 then some (n - 87)
  else if 65 ≤ n ∧ n ≤ 70 then some (n - 55)
  else none

/-- Decode the body of a JSON string literal (opening quote consumed),
returning the decoded characters and the input after the closing quote. -/
def parseStrAux : Nat → List Char → Option (List Char × List Char)
  | 0, _ => none
  | _ + 1, [] => none
  | fuel + 1, c :: rest =>
    if c == '"' then some ([], rest)
    else if c == '\\' then
      match rest with
      | [] => none
      | e :: rest2 =>
        let dec : Option (Char × List Char) :=
          if e == '"' then some ('"', rest2)
          else if e == '\\' then some ('\\', rest2)
          else if e == '/' then some ('/', rest2)
          else if e == 'n' then some ('\n', rest2)
          else if e == 't' then some ('\t', rest2)
          else if e == 'r' then some ('\r', rest2)
          else if e == 'b' then some ('\x08', rest2)
          else if e == 'f' then some ('\x0c', rest2)
          else if e == 'u' then
            match rest2 with
            | h1 :: h2 :: h3 :: h4 :: rest3 =>
              match hexVal h1, hexVal h2, hexVal h3, hexVal h4 with
              | some a, some b, some c', some d =>
                some (Char.ofNat (((a * 16 + b) * 16 + c') * 16 + d), rest3)
              | _, _, _, _ => none
            | _ => none
          else none
        match dec with
        | some (ch, r) => (parseStrAux fuel r).map fun p => (ch :: p.1, p.2)
        | none => none
    else
      (parseStrAux fuel rest).map fun p => (c :: p.1, p.2)

/-- Characters that may occur in a JSON number lexeme. -/
def numChar (c : Char) : Bool :=
  c.isDigit || c == '-' || c == '+' || c == '.' || c == 'e' || c == 'E'

mutual

/-- Parse one JSON value, returning it and the remaining input. -/
def parseVal : Nat → List Char → Option (JValue × List Char)
  | 0, _ => none
  | fuel + 1, s =>
    match skipWs s with
    | [] => none
    | c :: rest =>
      if c == '"' then
        (parseStrAux (rest.length + 1) rest).map fun p => (.jstr ⟨p.1⟩, p.2)
      else if c == '[' then
        match skipWs rest with
        | ']' :: rest2 => some (.jarr [], rest2)
        | r => (parseArrElems fuel r).map fun p => (.jarr p.1, p.2)
      else if c == '\x7b' then
        match skipWs rest with
        | '\x7d' :: rest2 => some (.jobj [], rest2)
        | r => (parseObjFields fuel r).map fun p => (.jobj p.1, p.2)
      else if isPre "null".toList (c :: rest) then
        some (.jnull, (c :: rest).drop 4)
      else if isPre "true".toList (c :: rest) then
        some (.jbool true, (c :: rest).drop 4)
      else if isPre "false".toList (c :: rest) then
        some (.jbool false, (c :: rest).drop 5)
      else if c.isDigit || c == '-' then
        let lex := (c :: rest).takeWhile numChar
        some (.jnum ⟨lex⟩, (c :: rest).drop lex.length)
      else none

/-- Parse the elements of a non-empty array (opening bracket consumed). -/
def parseArrElems : Nat → List Char → Option (List JValue × List Char)
  | 0, _ => none
  | fuel + 1, s =>
    match parseVal fuel s with
    | none => none
    | some (v, rest) =>
      match skipWs rest with
      | ',' :: rest2 => (parseArrElems fuel rest2).map fun p => (v :: p.1, p.2)
      | ']' :: rest2 => some ([v], rest2)
      | _ => none

/-- Parse the fields of a non-empty object (opening brace consumed). -/
def parseObjFields : Nat → List Char → Option (List (String × JValue) × List Char)
  | 0, _ => none
  | fuel + 1, s =>
    match skipWs s with
    | '"' :: rest =>
      match parseStrAux (rest.length + 1) rest with
      | none => none
      | some (key, rest2) =>
        match skipWs rest2 with
        | ':' :: rest3 =>
          match parseVal fuel rest3 with
          | none => none
          | some (v, rest4) =>
            match skipWs rest4 with
            | ',' :: rest5 => (parseObjFields fuel rest5).map fun p => ((⟨key⟩, v) :: p.1, p.2)
            | '\x7d' :: rest5 => some ([(⟨key⟩, v)], rest5)
            | _ => none
        | _ => none
    | _ => none

end

/-- `json.loads`: parse one value and require only whitespace after it. -/
def jsonParse (s : String) : Option JValue :=
  match parseVal (2 * s.toList.length + 8) s.toList with
  | some (v, rest) => if skipWs rest = [] then some v else none
  | none => none

/-! ## The regular-expression steps (lines 123-129, 304-334) -/

/-- Continue a match of the depth-limited object pattern
`\x7b[^\x7b\x7d]*(?:\x7b[^\x7b\x7d]*\x7d[^\x7b\x7d]*)*\x7d` after its
opening brace: running depth starts at 1; a match ends exactly where the
depth first returns to 0, and is impossible once depth would exceed 2. -/
def braceTake (depth : Nat) : List Char → Option (List Char)
  | [] => none
  | c :: rest =>
    if c == '\x7b' then
      if depth ≥ 2 then none
      else (braceTake (depth + 1) rest).map (c :: ·)
    else if c == '\x7d' then
      if depth = 1 then some [c]
      else (braceTake (depth - 1) rest).map (c :: ·)
    else
      (braceTake depth rest).map (c :: ·)

/-- `re.search` with the depth-limited object pattern: leftmost start that
admits a match. -/
def findPat1 : List Char → Option (List Char)
  | [] => none
  | c :: rest =>
    if c == '\x7b' then
      match braceTake 1 rest with
      | some body => some ('\x7b' :: body)
      | none => findPat1 rest
    else findPat1 rest

/-- `re.search(r'\x7b.*\x7d', s, re.DOTALL)` (and the bracket analogue):
greedy, so from the first `opn` to the last `cls` after it. -/
def findGreedyDelim (opn cls : Char) (s : List Char) : Option (List Char) :=
  let t := s.dropWhile (· != opn)
  let u := (t.reverse.dropWhile (· != cls)).reverse
  if u.length ≥ 2 then some u else none

/-- Python `\w`. -/
def isWordChar (c : Char) : Bool := c.isAlphanum || c == '_'

/-- Python `\s`. -/
def isSpaceChar (c : Char) : Bool := pyWs c

/-- `re.findall(r'\b\d+\b', s)`: split into maximal word-character runs and
keep the all-digit ones. -/
def wordRuns (s : List Char) : List (List Char) :=
  let p := s.foldr
    (fun c acc =>
      if isWordChar c then (c :: acc.1, acc.2)
      else ([], if acc.1.isEmpty then acc.2 else acc.1 :: acc.2))
    (([] : List Char), ([] : List (List Char)))
  if p.1.isEmpty then p.2 else p.1 :: p.2

def findallDigits (s : String) : List String :=
  ((wordRuns s.toList).filter fun r => r.all Char.isDigit).map fun r => ⟨r⟩

/-- `re.sub(r'\bTOK\b', repl, s)`: left-to-right, non-overlapping; `prev`
is the original character before the scan position (for the left `\b`). -/
def subWordAux (pat repl : List Char) : Option Char → Nat → List Char → List Char
  | _, 0, l => l
  | _, _ + 1, [] => []
  | prev, fuel + 1, c :: rest =>
    let leftOk := !((prev.map isWordChar).getD false)
    let afterPat := (c :: rest).drop pat.length
    let rightOk := !((afterPat.head?.map isWordChar).getD false)
    if !pat.isEmpty && leftOk && isPre pat (c :: rest) && rightOk then
      repl ++ subWordAux pat repl pat.getLast? fuel afterPat
    else
      c :: subWordAux pat repl (some c) fuel rest

def subWord (pat repl s : String) : String :=
  ⟨subWordAux pat.toList repl.toList none s.toList.length s.toList⟩

/-- `re.sub(r':\s*TOK\s*', ': null', s)`. -/
def subColonAux (tok : List Char) : Nat → List Char → List Char
  | 0, l => l
  | _ + 1, [] => []
  | fuel + 1, c :: rest =>
    if c == ':' then
      let r1 := rest.dropWhile isSpaceChar
      if isPre tok r1 then
        let r2 := (r1.drop tok.length).dropWhile isSpaceChar
        ": null".toList ++ subColonAux tok fuel r2
      else c :: subColonAux tok fuel rest
    else c :: subColonAux tok fuel rest

def subColon (tok s : String) : String :=
  ⟨subColonAux tok.toList s.toList.length s.toList⟩

/-- The five `re.sub` sanitization passes of lines 319-325, in order. -/
def sanitizeJson (s : String) : String :=
  subColon "undefined"
    (subColon "NaN"
      (subWord "null" "null"
        (subWord "undefined" "null"
          (subWord "NaN" "null" s))))

/-! ## Validation and cleaning (lines 342-391) -/

/-- The values rejected outright by `clean_text`/`clean_list`:
`None`, the string `'NaN'`, the string `'undefined'`. -/
def isNullLike : JValue → Bool
  | .jnull => true
  | .jstr s => s == "NaN" || s == "undefined"
  | _ => false

def placeholderText : String := "Information not available"

def defaultRecommendation : String := "Consult with legal counsel"

/-- `clean_text`. -/
def cleanText (t : JValue) : String :=
  if isNullLike t || pyStrip (pyStr t) == "" then placeholderText
  else
    let cleaned := pyStrip (pyReplace (pyReplace (pyStr t) "NaN" "N/A") "undefined" "N/A")
    if cleaned == "" then placeholderText else cleaned

/-- The filter applied to each item by `clean_list`. -/
def keepItem (t : JValue) : Bool :=
  !isNullLike t && pyStrip (pyStr t) != ""

/-- `clean_list`.  Note the early `return []` when the value is not a
list: the default entry is NOT substituted on that path. -/
def cleanList : JValue → List String
  | .jarr items =>
    let cleaned := (items.filter keepItem).map cleanText
    if cleaned.isEmpty then [defaultRecommendation] else cleaned
  | _ => []

/-- The validated fixed-shape record (the six named fields). -/
structure AdviceData where
  issue : String
  rule : String
  analysis : String
  conclusion : String
  risk_level : String
  recommendations : List String
deriving DecidableEq, Repr

/-- `_parse_fallback_response`: heuristic reconstruction from free text. -/
def parseFallbackResponse (content : String) : AdviceData :=
  let cc := pyReplace (pyReplace content "NaN" "N/A") "undefined" "N/A"
  { issue := "Legal issues identified from scenario"
    rule := "Relevant PDPA provisions apply"
    analysis := if cc.length > 500 then cc.take 500 ++ "..." else cc
    conclusion := "Further legal review recommended"
    risk_level :=
      if pyIn "high" (pyLower cc) then "High"
      else if pyIn "low" (pyLower cc) then "Low"
      else "Medium"
    recommendations := ["Consult with legal counsel", "Review PDPA compliance"] }

/-- The dict `_parse_fallback_response` hands back into the validator. -/
def fallbackResponseJ (content : String) : JValue :=
  let a := parseFallbackResponse content
  .jobj [("issue", .jstr a.issue), ("rule", .jstr a.rule),
         ("analysis", .jstr a.analysis), ("conclusion", .jstr a.conclusion),
         ("risk_level", .jstr a.risk_level),
         ("recommendations", .jarr (a.recommendations.map .jstr))]

/-- `validate_advice_data`: a non-dict is replaced wholesale by
`_parse_fallback_response("Invalid response format")`; otherwise each of
the six fields is cleaned if present and defaulted if absent. -/
def validateAdviceData : JValue → AdviceData
  | .jobj kvs =>
    { issue :=
        match getKey kvs "issue" with
        | some v => cleanText v
        | none => placeholderText
      rule :=
        match getKey kvs "rule" with
        | some v => cleanText v
        | none => placeholderText
      analysis :=
        match getKey kvs "analysis" with
        | some v => cleanText v
        | none => placeholderText
      conclusion :=
        match getKey kvs "conclusion" with
        | some v => cleanText v
        | none => placeholderText
      risk_level :=
        match getKey kvs "risk_level" with
        | some v => cleanText v
        | none => placeholderText
      recommendations :=
        match getKey kvs "recommendations" with
        | some v => cleanList v
        | none => [defaultRecommendation] }
  | _ => parseFallbackResponse "Invalid response format"

/-! ## Reply parsing (lines 304-339) and the Opinion Generator -/

/-- The two-pattern extraction loop: pattern 1 (depth-limited) first; on
no match or a decode error, pattern 2 (greedy); `none` means both
attempts failed and the heuristic fallback takes over. -/
def parseAdviceData (content : String) : Option JValue :=
  let viaPat2 : Option JValue :=
    match findGreedyDelim '\x7b' '\x7d' content.toList with
    | some m => jsonParse (sanitizeJson ⟨m⟩)
    | none => none
  match findPat1 content.toList with
  | some m =>
    match jsonParse (sanitizeJson ⟨m⟩) with
    | some v => some v
    | none => viaPat2
  | none => viaPat2

/-- Lines 304-381: extract, sanitize, parse (falling back to the free-text
heuristic), then validate. -/
def processContent (content : String) : AdviceData :=
  match parseAdviceData content with
  | some v => validateAdviceData v
  | none => validateAdviceData (fallbackResponseJ content)

/-- The structured result type (`LegalAdvice` dataclass). -/
structure LegalAdvice where
  issue : String
  rule : String
  analysis : String
  conclusion : String
  relevant_sections : List SectionExcerpt
  risk_level : String
  recommendations : List String
deriving DecidableEq, Repr

/-- The fixed identifiers of `_get_fallback_sections`. -/
def commonSections : List String :=
  ["11", "12", "13", "14", "15", "18", "19", "20", "21", "22"]

/-- `_get_fallback_sections`: hydrate the fixed identifiers from the
store, silently skipping the absent ones. -/
def getFallbackSections (df : Frame) : List SectionExcerpt :=
  commonSections.filterMap (getSection df)

/-- Hydration loop shared by the selector paths: take `top_k` selected
values, keep the string-valued ones present in the store. -/
def hydrateSections (df : Frame) (nums : List JValue) (top_k : Nat) : List SectionExcerpt :=
  (nums.take top_k).filterMap fun v =>
    match v with
    | .jstr s => getSection df s
    | _ => none

/-- `search_relevant_sections`: model call with fallback iteration; reply
parsed as a JSON array (or bare digit tokens); any exception — including
all candidates failing or a decode error — yields the fixed fallback
sections. -/
def searchRelevantSections (df : Frame) (oracle : String → ModelOutcome)
    (top_k : Nat := 10) : List SectionExcerpt :=
  match tryModels oracle modelsToTry with
  | .error _ => getFallbackSections df
  | .ok raw =>
    let content := pyStrip raw
    match findGreedyDelim '[' ']' content.toList with
    | some m =>
      match jsonParse (String.mk m) with
      | some (.jarr xs) => hydrateSections df xs top_k
      | some _ => getFallbackSections df
      | none => getFallbackSections df
    | none => hydrateSections df ((findallDigits content).map .jstr) top_k

/-- The Gatekeeper short-circuit record (lines 224-232). -/
def rejectionAdvice (reason : String) : LegalAdvice :=
  { issue := "Input validation failed"
    rule := "The PDPA Legal Advisor is designed for data protection and privacy law scenarios only"
    analysis := reason
    conclusion := "Please provide a scenario involving personal data, privacy, or legal compliance issues."
    relevant_sections := []
    risk_level := "N/A"
    recommendations := ["Provide a legal scenario involving data protection",
                        "Include details about personal data handling",
                        "Describe privacy or compliance concerns"] }

/-- `_create_error_advice` (lines 425-435). -/
def createErrorAdvice (sections : List SectionExcerpt) (error : String) : LegalAdvice :=
  { issue := "Error in analysis"
    rule := "PDPA provisions may apply"
    analysis := "Technical error occurred: " ++ error
    conclusion := "Manual legal review required"
    relevant_sections := sections
    risk_level := "Unknown"
    recommendations := ["Consult legal expert", "Review relevant PDPA sections"] }

/-- `generate_legal_advice` (lines 211-395).  The two hosted-model calls
are modelled by two oracles (one per prompt).  Every path returns a
`LegalAdvice`; the `try` block's only uncaught-exception source is the
model-call chain, whose failure lands in `createErrorAdvice`. -/
def generateLegalAdvice (df : Frame) (searchOracle genOracle : String → ModelOutcome)
    (scenario : String) : LegalAdvice :=
  let gate := isLegalScenario scenario
  if gate.1 = false then rejectionAdvice gate.2
  else
    let sections := searchRelevantSections df searchOracle
    match tryModels genOracle modelsToTry with
    | .error e => createErrorAdvice sections e
    | .ok raw =>
      let ad := processContent (pyStrip raw)
      { issue := ad.issue, rule := ad.rule, analysis := ad.analysis,
        conclusion := ad.conclusion, relevant_sections := sections,
        risk_level := ad.risk_level, recommendations := ad.recommendations }

/-! ## Concrete instances used by the theorems -/

/-- A corpus row with the three columns of the CSV. -/
def mkRow (n : Option String) (t x : String) : Row :=
  [("section_number", n), ("section_title", some t), ("text", some x)]

/-- The spec's store example: input identifiers `"11"`, `"26A"`, `""`, `"15"`. -/
def exFrame : Frame :=
  { columns := ["section_number", "section_title", "text"]
    rows := [mkRow (some "11") "T11" "X11", mkRow (some "26A") "T26A" "X26A",
             mkRow (some "") "Tempty" "Xempty", mkRow (some "15") "T15" "X15"] }

/-- A small well-formed store holding sections 11, 15 and 21. -/
def smallDf : Frame :=
  { columns := ["section_number", "section_title", "text"]
    rows := [mkRow (some "11") "T11" "X11", mkRow (some "15") "T15" "X15",
             mkRow (some "21") "T21" "X21"] }

/-- A frame that has the identifier column but neither title nor text. -/
def noTitleFrame : Frame :=
  { columns := ["section_number"], rows := [[("section_number", some "11")]] }

/-- A syntactically valid six-field reply whose `risk_level` value is the
unquoted token `NaN`. -/
def c7reply : String :=
  "\x7b\"issue\": \"I\", \"rule\": \"R\", \"analysis\": \"A\", \"conclusion\": \"C\", \"risk_level\": NaN, \"recommendations\": [\"Do X\"]\x7d"

/-- A syntactically valid six-field reply whose `issue` value carries
leading and trailing spaces. -/
def c6reply : String :=
  "\x7b\"issue\": \" a \", \"rule\": \"b\", \"analysis\": \"c\", \"conclusion\": \"d\", \"risk_level\": \"Low\", \"recommendations\": [\"r\"]\x7d"

/-- A syntactically valid reply whose `recommendations` value is a string,
not a list. -/
def c2reply : String :=
  "\x7b\"issue\": \"i\", \"rule\": \"r\", \"analysis\": \"a\", \"conclusion\": \"c\", \"risk_level\": \"Low\", \"recommendations\": \"Do X\"\x7d"

/-- A scenario accepted by the Gatekeeper. -/
def acceptedScenario : String := "A company collected personal data without consent"

/-- The sanitized form of `c7reply`: the `NaN` token has become `null`. -/
def c7sanitized : String :=
  "\x7b\"issue\": \"I\", \"rule\": \"R\", \"analysis\": \"A\", \"conclusion\": \"C\", \"risk_level\": null, \"recommendations\": [\"Do X\"]\x7d"

/-- Being a "clean" string: non-empty, already stripped, and free of the
`NaN` / `undefined` sentinels. -/
def cleanStrB (s : String) : Bool :=
  s != "" && pyStrip s == s
    && !hasSub "NaN".toList s.toList && !hasSub "undefined".toList s.toList

/-- Modelled from the spec's words for the claim that each keyword is
"counted at most once": the number of DISTINCT keywords of the fixed set
occurring in the case-folded scenario.  To be compared against the
program's `keywordCount`, which iterates the raw list (in which
`"organization"` appears twice). -/
def distinctKeywordCount (s : String) : Nat :=
  (legalKeywords.dedup.filter fun k => pyIn k (pyLower s)).length

/-! ## Helper lemmas -/

theorem isPre_refl (l : List Char) : isPre l l = true := by
  induction l with
  | nil => rfl
  | cons a as ih => simp [isPre, ih]

theorem hasSub_self (l : List Char) : hasSub l l = true := by
  cases l with
  | nil => rfl
  | cons c rest => simp [hasSub, isPre_refl]

theorem ne_of_not_hasSub {pat : List Char} {s : String}
    (h : hasSub pat s.toList = false) : s.toList ≠ pat := by
  intro he
  rw [he, hasSub_self] at h
  exact Bool.true_eq_false.mp h

theorem string_mk_toList (s : String) : String.mk s.toList = s := rfl

theorem replaceFrom_no_occur (pat repl : List Char) :
    ∀ (fuel : Nat) (s : List Char), hasSub pat s = false →
      replaceFrom pat repl fuel s = s := by
  intro fuel
  induction fuel with
  | zero => intro s _; rfl
  | succ n ih =>
    intro s h
    cases s with
    | nil => rfl
    | cons c rest =>
      simp only [hasSub, Bool.or_eq_false_iff] at h
      simp [replaceFrom, h.1, ih rest h.2]

theorem pyReplace_no_occur {s pat : String} (repl : String)
    (h : hasSub pat.toList s.toList = false) : pyReplace s pat repl = s := by
  unfold pyReplace
  rw [replaceFrom_no_occur pat.toList repl.toList s.toList.length s.toList h]
  rfl

theorem cleanStrB_spec {s : String} (h : cleanStrB s = true) :
    s ≠ "" ∧ pyStrip s = s
      ∧ hasSub "NaN".toList s.toList = false
      ∧ hasSub "undefined".toList s.toList = false := by
  simp only [cleanStrB, Bool.and_eq_true] at h
  obtain ⟨⟨⟨h1, h2⟩, h3⟩, h4⟩ := h
  exact ⟨by simpa using h1, by simpa using h2, by simpa using h3, by simpa using h4⟩

theorem isNullLike_of_clean {s : String} (h : cleanStrB s = true) :
    isNullLike (JValue.jstr s) = false := by
  obtain ⟨-, -, hn, hu⟩ := cleanStrB_spec h
  have h1 : s ≠ "NaN" := fun he => ne_of_not_hasSub hn (by rw [he])
  have h2 : s ≠ "undefined" := fun he => ne_of_not_hasSub hu (by rw [he])
  simp [isNullLike, h1, h2]

theorem cleanText_jstr_id {s : String} (h : cleanStrB s = true) :
    cleanText (JValue.jstr s) = s := by
  obtain ⟨hne, hst, hn, hu⟩ := cleanStrB_spec h
  have hps : pyStr (JValue.jstr s) = s := rfl
  have hrepl : pyReplace (pyReplace s "NaN" "N/A") "undefined" "N/A" = s := by
    rw [pyReplace_no_occur _ hn, pyReplace_no_occur _ hu]
  simp [cleanText, isNullLike_of_clean h, hps, hst, hne, hrepl]

theorem keepItem_of_clean {s : String} (h : cleanStrB s = true) :
    keepItem (JValue.jstr s) = true := by
  obtain ⟨hne, hst, -, -⟩ := cleanStrB_spec h
  have hps : pyStr (JValue.jstr s) = s := rfl
  simp [keepItem, isNullLike_of_clean h, hps, hst, hne]

theorem keepItem_empty : keepItem (JValue.jstr "") = false := rfl

theorem filter_keep_map (recs : List String)
    (h : ∀ x ∈ recs, x = "" ∨ cleanStrB x = true) :
    ((recs.map JValue.jstr).filter keepItem).map cleanText
      = recs.filter (fun x => x != "") := by
  induction recs with
  | nil => rfl
  | cons x xs ih =>
    have hx := h x (List.mem_cons_self x xs)
    have hxs : ∀ y ∈ xs, y = "" ∨ cleanStrB y = true :=
      fun y hy => h y (List.mem_cons_of_mem x hy)
    rcases hx with hx | hx
    · subst hx
      simp [List.filter_cons, keepItem_empty, ih hxs]
    · have hne : (x != "") = true := bne_iff_ne.mpr (cleanStrB_spec hx).1
      simp [List.filter_cons, keepItem_of_clean hx, hne,
        cleanText_jstr_id hx, ih hxs]

theorem cleanList_map_jstr (recs : List String)
    (h : ∀ x ∈ recs, x = "" ∨ cleanStrB x = true)
    (hne : recs.filter (fun x => x != "") ≠ []) :
    cleanList (JValue.jarr (recs.map JValue.jstr))
      = recs.filter (fun x => x != "") := by
  have hf := filter_keep_map recs h
  have hemp : (((recs.map JValue.jstr).filter keepItem).map cleanText).isEmpty = false := by
    rw [hf]
    exact List.isEmpty_eq_false.mpr hne
  simp only [cleanList, hemp]
  simpa using hf

theorem cleanList_arr_ne_nil (xs : List JValue) :
    cleanList (JValue.jarr xs) ≠ [] := by
  show (if ((xs.filter keepItem).map cleanText).isEmpty then [defaultRecommendation]
        else (xs.filter keepItem).map cleanText) ≠ []
  rcases he : ((xs.filter keepItem).map cleanText).isEmpty with _ | _
  · simpa using List.isEmpty_eq_false.mp he
  · simp

theorem tryModels_all_err (oracle : String → ModelOutcome) :
    ∀ ms : List String, (∀ m ∈ ms, ∃ e, oracle m = .err e) →
      ∃ e, tryModels oracle ms = .error e := by
  intro ms
  induction ms with
  | nil => exact fun _ => ⟨"No available models found", rfl⟩
  | cons m ms ih =>
    intro h
    obtain ⟨e, he⟩ := h m (List.mem_cons_self m ms)
    rcases hb : isNotFoundErr e with _ | _
    · exact ⟨e, by simp [tryModels, he, hb]⟩
    · obtain ⟨e', he'⟩ := ih fun x hx => h x (List.mem_cons_of_mem m hx)
      exact ⟨e', by simp [tryModels, he, hb, he']⟩

theorem getSection_num {df : Frame} {n : String} {ex : SectionExcerpt}
    (h : getSection df n = some ex) : ex.section_number = n := by
  simp only [getSection, Option.map_eq_some'] at h
  obtain ⟨r, hr, hex⟩ := h
  have hp := List.find?_some hr
  simp only [beq_iff_eq] at hp
  subst hex
  simp [rowNum, hp]

theorem filterMap_getSection_map_num (df : Frame) :
    ∀ ids : List String,
      ((ids.filterMap (getSection df)).map (fun e => e.section_number))
        = ids.filter (fun n => (findSection df n).isSome) := by
  intro ids
  induction ids with
  | nil => rfl
  | cons n ids ih =>
    rcases hg : getSection df n with _ | ex
    · have hf : (findSection df n).isSome = false := by
        simp only [getSection, Option.map_eq_none'] at hg
        simp [hg]
      simp [List.filterMap_cons, hg, List.filter_cons, hf, ih]
    · have hf : (findSection df n).isSome = true := by
        simp only [getSection, Option.map_eq_some'] at hg
        obtain ⟨r, hr, -⟩ := hg
        simp [hr]
      simp [List.filterMap_cons, hg, List.filter_cons, hf, ih, getSection_num hg]

theorem goodRow_iff (r : Row) :
    goodRow r = true
      ↔ ∃ v, lookupCell r "section_number" = some (some v) ∧ isDigits v = true := by
  unfold goodRow
  rcases h : lookupCell r "section_number" with _ | o
  · simp [h]
  · rcases o with _ | v
    · simp [h]
    · simp [h]

theorem sum_map_ite_eq_length_filter (p : String → Bool) :
    ∀ l : List String,
      (l.map (fun k => if p k then 1 else 0)).sum = (l.filter p).length := by
  intro l
  induction l with
  | nil => rfl
  | cons x xs ih =>
    rcases hp : p x with _ | _ <;>
      simp [List.filter_cons, hp, ih, Nat.add_comm]

/-! ## Claim theorems -/

/-- C3: the store built at construction contains exactly the input rows
whose identifier is non-null and all-digits (`^\d+$`); all other rows are
discarded, and on the example identifiers `["11","26A","","15"]` the store
has size 2 and holds `"11"` and `"15"`. -/
theorem c3_store_numeric_filter :
    (∀ df : Frame, "section_number" ∈ df.columns →
      ∃ df', loadPdpaData (some df) = .ok df'
        ∧ df'.columns = df.columns
        ∧ df'.rows.length = df.rows.countP goodRow
        ∧ (∀ r : Row, r ∈ df'.rows ↔ r ∈ df.rows
            ∧ ∃ v, lookupCell r "section_number" = some (some v) ∧ isDigits v = true))
    ∧ loadPdpaData (some exFrame)
        = .ok { columns := exFrame.columns
                rows := [mkRow (some "11") "T11" "X11", mkRow (some "15") "T15" "X15"] }
    ∧ (exFrame.rows.filter goodRow).length = 2 := by
  refine ⟨?_, rfl, by decide⟩
  intro df h
  refine ⟨⟨df.columns, df.rows.filter goodRow⟩, ?_, rfl, ?_, ?_⟩
  · simp [loadPdpaData, h]
  · simp [List.countP_eq_length_filter]
  · intro r
    rw [List.mem_filter]
    exact and_congr_right fun _ => goodRow_iff r

theorem c3_store_numeric_filter_witness :
    ("section_number" ∈ exFrame.columns)
    ∧ (∃ df', loadPdpaData (some exFrame) = .ok df'
        ∧ df'.columns = exFrame.columns
        ∧ df'.rows.length = exFrame.rows.countP goodRow
        ∧ (∀ r : Row, r ∈ df'.rows ↔ r ∈ exFrame.rows
            ∧ ∃ v, lookupCell r "section_number" = some (some v) ∧ isDigits v = true)) :=
  ⟨by decide, c3_store_numeric_filter.1 exFrame (by decide)⟩

/-- C9 counterexample: a frame having the identifier column but neither a
title nor a text column loads successfully, while the claim requires a
`DataLoadError` whenever the title or text column is missing. -/
theorem c9_counterexample :
    ("section_title" ∉ noTitleFrame.columns)
    ∧ ("text" ∉ noTitleFrame.columns)
    ∧ loadPdpaData (some noTitleFrame) = .ok noTitleFrame :=
  ⟨by decide, by decide, rfl⟩

/-- C9 amended: construction fails when the source cannot be parsed as
tabular data or when the `section_number` column is missing; with the
identifier column present it succeeds — the title and text columns are not
validated at construction. -/
theorem c9_amended :
    loadPdpaData none = .error "Error loading PDPA data: could not parse tabular source"
    ∧ (∀ df : Frame, "section_number" ∉ df.columns →
        loadPdpaData (some df) = .error "Error loading PDPA data: KeyError section_number")
    ∧ (∀ df : Frame, "section_number" ∈ df.columns →
        loadPdpaData (some df) = .ok { columns := df.columns, rows := df.rows.filter goodRow }) := by
  refine ⟨rfl, ?_, ?_⟩
  · intro df h
    simp [loadPdpaData, h]
  · intro df h
    simp [loadPdpaData, h]

theorem c9_amended_witness :
    ("section_number" ∈ smallDf.columns)
    ∧ loadPdpaData (some smallDf)
        = .ok { columns := smallDf.columns, rows := smallDf.rows.filter goodRow } :=
  ⟨by decide, c9_amended.2.2 smallDf (by decide)⟩

/-- C4: when every candidate model call fails, the selector returns the
fixed fallback identifiers 11-15, 18-22 restricted to those present in the
store, in that fixed order, computed from the store alone. -/
theorem c4_fallback_selector :
    ∀ (df : Frame) (oracle : String → ModelOutcome),
      (∀ m ∈ modelsToTry, ∃ e, oracle m = .err e) →
      searchRelevantSections df oracle 10 = getFallbackSections df
      ∧ (getFallbackSections df).map (fun e => e.section_number)
          = commonSections.filter (fun n => (findSection df n).isSome) := by
  intro df oracle h
  obtain ⟨e, he⟩ := tryModels_all_err oracle modelsToTry h
  constructor
  · simp [searchRelevantSections, he]
  · simpa [getFallbackSections] using filterMap_getSection_map_num df commonSections

theorem c4_fallback_selector_witness :
    searchRelevantSections smallDf (fun _ => .err "boom") 10 = getFallbackSections smallDf
    ∧ (getFallbackSections smallDf).map (fun e => e.section_number)
        = commonSections.filter (fun n => (findSection smallDf n).isSome) :=
  c4_fallback_selector smallDf (fun _ => .err "boom") (fun _ _ => ⟨"boom", rfl⟩)

/-- C5: the gatekeeper case-folds the scenario, rejects below 2 keyword
hits, and rejects with a different reason when an unrelated term is present
and the hit count is below 3; in particular "hello" is rejected, the
consent scenario is accepted, and the chocolate scenario is rejected. -/
theorem c5_gatekeeper :
    isLegalScenario "hello" = (false, rejectReasonNoKeywords)
    ∧ isLegalScenario acceptedScenario = (true, acceptReason)
    ∧ isLegalScenario "I love chocolate and data privacy" = (false, rejectReasonNonLegal)
    ∧ (∀ s : String, keywordCount s < 2 →
        isLegalScenario s = (false, rejectReasonNoKeywords))
    ∧ (∀ s : String,
        (nonLegalIndicators.any fun t => pyIn t (pyLower s)) = true →
        keywordCount s < 3 → (isLegalScenario s).1 = false) := by
  refine ⟨by decide, by decide, by decide, ?_, ?_⟩
  · intro s h
    simp [isLegalScenario, h]
  · intro s hind hcnt
    by_cases h2 : keywordCount s < 2
    · simp [isLegalScenario, h2]
    · simp [isLegalScenario, h2, hind, hcnt]

theorem c5_gatekeeper_witness :
    keywordCount "hello" < 2
    ∧ isLegalScenario "hello" = (false, rejectReasonNoKeywords) :=
  ⟨by decide, c5_gatekeeper.2.2.2.1 "hello" (by decide)⟩

/-- C10 counterexample: the code's hit count is per list entry, and the
keyword list contains "organization" twice, so the scenario
"organization" scores 2 while the number of distinct matching keywords is
1 — the claimed equality with a distinct-keyword count fails. -/
theorem c10_counterexample :
    keywordCount "organization" = 2
    ∧ distinctKeywordCount "organization" = 1
    ∧ keywordCount "organization" ≠ distinctKeywordCount "organization" :=
  ⟨by decide, by decide, by decide⟩

/-- C10 amended: the hit count is the number of entries of the fixed
keyword list occurring as substrings of the case-folded scenario (each
entry counted at most once however often it repeats in the scenario, but
the duplicated entry "organization" contributes twice); "data data data"
still scores 1 hit and is rejected. -/
theorem c10_amended :
    (∀ s : String,
      keywordCount s = (legalKeywords.filter fun k => pyIn k (pyLower s)).length)
    ∧ keywordCount "data data data" = 1
    ∧ (isLegalScenario "data data data").1 = false :=
  ⟨fun _ => sum_map_ite_eq_length_filter _ legalKeywords, by decide, by decide⟩

/-- C1: `generate_legal_advice` always returns a `LegalAdvice` (it is a
total function of the scenario and the two call oracles); whenever an
uncaught exception arises after the gatekeeper check — in this embedding,
failure of the opinion model-call chain, the only raising step of the
`try` block — the result is the error record: risk level "Unknown",
analysis carrying the error description, and exactly the two fixed
fallback recommendations. -/
theorem c1_error_path :
    ∀ (df : Frame) (o1 o2 : String → ModelOutcome) (scenario e : String),
      (isLegalScenario scenario).1 = true →
      tryModels o2 modelsToTry = .error e →
      generateLegalAdvice df o1 o2 scenario
        = createErrorAdvice (searchRelevantSections df o1) e
      ∧ (generateLegalAdvice df o1 o2 scenario).risk_level = "Unknown"
      ∧ (generateLegalAdvice df o1 o2 scenario).analysis
          = "Technical error occurred: " ++ e
      ∧ (generateLegalAdvice df o1 o2 scenario).recommendations
          = ["Consult legal expert", "Review relevant PDPA sections"] := by
  intro df o1 o2 scenario e h1 h2
  have hg : generateLegalAdvice df o1 o2 scenario
      = createErrorAdvice (searchRelevantSections df o1) e := by
    simp [generateLegalAdvice, h1, h2]
  exact ⟨hg, by rw [hg]; rfl, by rw [hg]; rfl, by rw [hg]; rfl⟩

theorem c1_error_path_witness :
    ((isLegalScenario acceptedScenario).1 = true)
    ∧ generateLegalAdvice smallDf (fun _ => .err "x") (fun _ => .err "fatal error")
        acceptedScenario
      = createErrorAdvice (searchRelevantSections smallDf (fun _ => .err "x")) "fatal error" :=
  ⟨by decide,
   (c1_error_path smallDf (fun _ => .err "x") (fun _ => .err "fatal error")
      acceptedScenario "fatal error" (by decide) rfl).1⟩

/-- C8: on a gatekeeper-rejected scenario `generate_legal_advice`
short-circuits deterministically — the result is the fixed placeholder
record with risk level "N/A" and no sections, and it is independent of the
store and of both model oracles (hence no model call influences it and two
runs agree). -/
theorem c8_rejection_short_circuit :
    ∀ scenario : String, (isLegalScenario scenario).1 = false →
      ∀ (df df' : Frame) (o1 o2 o1' o2' : String → ModelOutcome),
        generateLegalAdvice df o1 o2 scenario
          = rejectionAdvice (isLegalScenario scenario).2
        ∧ generateLegalAdvice df o1 o2 scenario = generateLegalAdvice df' o1' o2' scenario
        ∧ (generateLegalAdvice df o1 o2 scenario).risk_level = "N/A"
        ∧ (generateLegalAdvice df o1 o2 scenario).relevant_sections = [] := by
  intro scenario h df df' o1 o2 o1' o2'
  have hg : ∀ (d : Frame) (a b : String → ModelOutcome),
      generateLegalAdvice d a b scenario = rejectionAdvice (isLegalScenario scenario).2 := by
    intro d a b
    simp [generateLegalAdvice, h]
  exact ⟨hg df o1 o2, by rw [hg df o1 o2, hg df' o1' o2'],
    by rw [hg df o1 o2]; rfl, by rw [hg df o1 o2]; rfl⟩

theorem c8_rejection_short_circuit_witness :
    ((isLegalScenario "hello").1 = false)
    ∧ generateLegalAdvice smallDf (fun _ => .err "a") (fun _ => .err "b") "hello"
        = generateLegalAdvice exFrame (fun _ => .reply "[]") (fun _ => .reply "ok") "hello" :=
  ⟨by decide,
   (c8_rejection_short_circuit "hello" (by decide) smallDf exFrame
      (fun _ => .err "a") (fun _ => .err "b")
      (fun _ => .reply "[]") (fun _ => .reply "ok")).2.1⟩

/-- C2 counterexample: a reply whose `recommendations` value is a string
(present but not a list) survives validation with an EMPTY recommendations
list — `clean_list` returns `[]` outright for non-lists and the default is
not substituted, falsifying the claimed non-emptiness invariant. -/
theorem c2_counterexample :
    (validateAdviceData (.jobj [("recommendations", .jstr "Do X")])).recommendations = []
    ∧ (processContent c2reply).recommendations = [] :=
  ⟨rfl, rfl⟩

/-- C2 amended: the validated recommendations list is non-empty whenever
the field is absent or its value is a list (with the single default entry
substituted when the filtered list is empty), and for a non-dict reply the
two-entry fallback is used; but when the field is present with a non-list
value, `clean_list` returns the empty list and no default is substituted. -/
theorem c2_amended :
    (∀ kvs : List (String × JValue), getKey kvs "recommendations" = none →
      (validateAdviceData (.jobj kvs)).recommendations = [defaultRecommendation])
    ∧ (∀ (kvs : List (String × JValue)) (xs : List JValue),
        getKey kvs "recommendations" = some (.jarr xs) →
        (validateAdviceData (.jobj kvs)).recommendations ≠ [])
    ∧ (∀ xs : List JValue, xs.filter keepItem = [] →
        cleanList (.jarr xs) = [defaultRecommendation])
    ∧ (∀ v : JValue, (∀ xs, v ≠ .jarr xs) → cleanList v = [])
    ∧ (∀ v : JValue, (∀ kvs, v ≠ .jobj kvs) →
        (validateAdviceData v).recommendations
          = ["Consult with legal counsel", "Review PDPA compliance"]) := by
  refine ⟨fun kvs h => ?_, fun kvs xs h => ?_, fun xs h => ?_, fun v h => ?_, fun v h => ?_⟩
  · simp [validateAdviceData, h]
  · simpa [validateAdviceData, h] using cleanList_arr_ne_nil xs
  · simp [cleanList, h]
  · cases v with
    | jarr xs => exact absurd rfl (h xs)
    | jnull => rfl
    | jbool b => rfl
    | jnum lex => rfl
    | jstr s => rfl
    | jobj kvs => rfl
  · cases v with
    | jobj kvs => exact absurd rfl (h kvs)
    | jnull => rfl
    | jbool b => rfl
    | jnum lex => rfl
    | jstr s => rfl
    | jarr xs => rfl

theorem c2_amended_witness :
    (getKey [("x", JValue.jnull)] "recommendations" = none)
    ∧ (validateAdviceData (.jobj [("x", JValue.jnull)])).recommendations
        = [defaultRecommendation] :=
  ⟨rfl, c2_amended.1 [("x", JValue.jnull)] rfl⟩

/-- C6 counterexample: a syntactically valid six-field reply whose `issue`
value is `" a "` parses to that exact field, yet the built Opinion carries
the stripped `"a"` — the field is not reproduced verbatim. -/
theorem c6_counterexample :
    parseAdviceData c6reply
      = some (.jobj [("issue", .jstr " a "), ("rule", .jstr "b"),
                     ("analysis", .jstr "c"), ("conclusion", .jstr "d"),
                     ("risk_level", .jstr "Low"),
                     ("recommendations", .jarr [.jstr "r"])])
    ∧ (processContent c6reply).issue = "a"
    ∧ "a" ≠ " a " :=
  ⟨rfl, rfl, by decide⟩

/-- C6 amended: the validated record reproduces each textual field
verbatim provided the field is non-empty, carries no leading or trailing
whitespace, and contains neither "NaN" nor "undefined" as a substring; the
recommendations keep exactly the non-empty entries (likewise clean),
provided at least one entry survives the filter. -/
theorem c6_amended :
    ∀ (i r a c rl : String) (recs : List String),
      cleanStrB i = true → cleanStrB r = true → cleanStrB a = true →
      cleanStrB c = true → cleanStrB rl = true →
      (∀ x ∈ recs, x = "" ∨ cleanStrB x = true) →
      recs.filter (fun x => x != "") ≠ [] →
      validateAdviceData (.jobj [("issue", .jstr i), ("rule", .jstr r),
        ("analysis", .jstr a), ("conclusion", .jstr c), ("risk_level", .jstr rl),
        ("recommendations", .jarr (recs.map .jstr))])
        = { issue := i, rule := r, analysis := a, conclusion := c,
            risk_level := rl, recommendations := recs.filter (fun x => x != "") } := by
  intro i r a c rl recs hi hr ha hc hrl hrec hne
  have hv : validateAdviceData (.jobj [("issue", .jstr i), ("rule", .jstr r),
      ("analysis", .jstr a), ("conclusion", .jstr c), ("risk_level", .jstr rl),
      ("recommendations", .jarr (recs.map .jstr))])
    = { issue := cleanText (.jstr i), rule := cleanText (.jstr r),
        analysis := cleanText (.jstr a), conclusion := cleanText (.jstr c),
        risk_level := cleanText (.jstr rl),
        recommendations := cleanList (.jarr (recs.map .jstr)) } := rfl
  rw [hv, cleanText_jstr_id hi, cleanText_jstr_id hr, cleanText_jstr_id ha,
    cleanText_jstr_id hc, cleanText_jstr_id hrl, cleanList_map_jstr recs hrec hne]

theorem c6_amended_witness :
    cleanStrB "ok" = true
    ∧ validateAdviceData (.jobj [("issue", .jstr "ok"), ("rule", .jstr "ok"),
        ("analysis", .jstr "ok"), ("conclusion", .jstr "ok"),
        ("risk_level", .jstr "Low"),
        ("recommendations", .jarr (["r", ""].map JValue.jstr))])
        = { issue := "ok", rule := "ok", analysis := "ok", conclusion := "ok",
            risk_level := "Low",
            recommendations := ["r", ""].filter (fun x => x != "") } :=
  have hok : cleanStrB "ok" = true := by decide
  have hlow : cleanStrB "Low" = true := by decide
  have hrs : ∀ x ∈ ["r", ""], x = "" ∨ cleanStrB x = true := by decide
  have hfs : (["r", ""].filter fun x => x != "") ≠ [] := by decide
  ⟨hok, c6_amended "ok" "ok" "ok" "ok" "Low" ["r", ""] hok hok hok hok hlow hrs hfs⟩

/-- C7: a reply carrying the unquoted token `NaN` as the `risk_level`
value is textually sanitized to `null` before parsing, parsing succeeds
(yielding a null field), and validation coerces the null to the default
placeholder text. -/
theorem c7_nan_sanitization :
    sanitizeJson c7reply = c7sanitized
    ∧ (parseAdviceData c7reply).isSome = true
    ∧ parseAdviceData c7reply
        = some (.jobj [("issue", .jstr "I"), ("rule", .jstr "R"),
                       ("analysis", .jstr "A"), ("conclusion", .jstr "C"),
                       ("risk_level", .jnull),
                       ("recommendations", .jarr [.jstr "Do X"])])
    ∧ (processContent c7reply).risk_level = placeholderText
    ∧ cleanText .jnull = placeholderText :=
  ⟨rfl, rfl, rfl, rfl, rfl⟩

end PDPA
